import Mathlib

/-!
Verification of the RENEWLab Sounder configuration core (`config.cc`,
`recorder.cc`): the reciprocal-calibration schedule generator, the derived
PHY quantities, the beacon/pilot waveform composer, and the slot-schedule
query functions, shallowly embedded in Lean.
-/

set_option autoImplicit false
set_option maxRecDepth 20000

namespace Sounder

/-! ### std::string surrogate operations

C++ frame strings are modelled as `List Char`.
-/

/-- `std::string::replace(pos, 1, s)` with `|s| = 1`: overwrites the character
at `pos` when `pos < size()`, inserts at the end when `pos = size()`, and
throws `std::out_of_range` (modelled as `none`) when `pos > size()`. -/
def strReplace1 (s : List Char) (pos : Nat) (c : Char) : Option (List Char) :=
  if pos < s.length then some (s.set pos c)
  else if pos = s.length then some (s ++ [c])
  else none

/-! ### Reciprocal-calibration schedule generator (`Config::Config`, lines 154-183)

`calib_frames_[cell]` is generated independently per cell from the cell's SDR
count `N`, the reference index `r` (`cal_ref_sdr_id_`) and the channel count
`c` (`bs_channel_.size()`); we model the generator for one cell.  The C++
writes `calib_frames_[cell][r]` through `std::vector::operator[]`, which
requires `r < N`; the theorems below carry that hypothesis.
-/

/-- The inner `for (ch = 0; ch < num_channels; ch++)` loop of the generator
(config.cc lines 168-173), acting on the pair (frame `i`, reference frame):
`chLoopPair i c fi fr n` performs the first `n` iterations, each replacing
position `i*c + ch` of frame `i` with `'P'` and position `c*i + ch` of the
reference frame with `'R'`. -/
def chLoopPair (i c : Nat) (fi fr : List Char) : Nat → Option (List Char × List Char)
  | 0 => some (fi, fr)
  | n + 1 =>
    (chLoopPair i c fi fr n).bind (fun p =>
      (strReplace1 p.1 (i * c + n) 'P').bind (fun fi2 =>
      (strReplace1 p.2 (c * i + n) 'R').map (fun fr2 => (fi2, fr2))))

/-- The outer `for (i = 0; i < n_bs_sdrs_[cell]; i++)` loop of the generator
(config.cc lines 165-177): `sdrLoop r c L frames n` performs the iterations
`i = 0 .. n-1`.  A non-reference iteration `i` rebuilds frame `i` as
`std::string(L, 'G')`, runs the channel loop, and finally replaces position
`c*r` of frame `i` with `'R'`. -/
def sdrLoop (r c L : Nat) (frames : List (List Char)) : Nat → Option (List (List Char))
  | 0 => some frames
  | i + 1 =>
    (sdrLoop r c L frames i).bind (fun fs =>
      if i = r then some fs
      else
        (chLoopPair i c (List.replicate L 'G') (fs.getD r []) c).bind (fun p =>
        (strReplace1 p.1 (c * r) 'R').map (fun fi2 => (fs.set i fi2).set r p.2)))

/-- The reciprocal-calibration frame generator for one cell with `N` SDRs,
reference index `r` and channel count `c` (config.cc lines 155-178): the
frames vector is resized to `N` empty strings, the reference frame is set to
`std::string(L, 'G')` with `'P'` written at `c*r` (`L = c*N - (c-1)`), and
then the SDR loop runs. -/
def calibFrames (N r c : Nat) : Option (List (List Char)) :=
  (strReplace1 (List.replicate (c * N - (c - 1)) 'G') (c * r) 'P').bind (fun fr0 =>
    sdrLoop r c (c * N - (c - 1)) ((List.replicate N ([] : List Char)).set r fr0) N)

/-- `symbols_per_frame_ = calib_frames_.at(0).size()` in reciprocal
calibration mode (config.cc line 179), for a cell-0 generator run. -/
def recipSymbolsPerFrame (N r c : Nat) : Option Nat :=
  (calibFrames N r c).map List.length

/-! ### Closed forms for the generated calibration frames (reference = last SDR)

With `N = n+1` SDRs and reference index `r = n`, the generator produces,
for the reference SDR, `c*n` slots of `'R'` followed by one `'P'`, and for
every other SDR `i` its own `c` pilot slots, guards, and a final `'R'`; the
definitions below give the intermediate loop states used in the invariant.
-/

/-- Reference frame after `m` non-reference iterations of the SDR loop. -/
def refPartial (c n m : Nat) : List Char :=
  List.replicate (c * m) 'R' ++ List.replicate (c * n - c * m) 'G' ++ ['P']

/-- Final frame of a non-reference SDR `i` (reference index `n`). -/
def doneFrame (c n i : Nat) : List Char :=
  List.replicate (i * c) 'G' ++ List.replicate c 'P'
    ++ List.replicate (c * n - c * (i + 1)) 'G' ++ ['R']

/-- Whole frame table after `m` non-reference iterations of the SDR loop. -/
def framesAt (n c m : Nat) : List (List Char) :=
  (List.range (n + 1)).map
    (fun j => if j = n then refPartial c n m else if j < m then doneFrame c n j else [])

lemma set_append_len {α : Type} (xs : List α) (y c : α) (t : List α) :
    (xs ++ y :: t).set xs.length c = xs ++ c :: t := by
  induction xs with
  | nil => rfl
  | cons a l ih => simp [List.set, ih]

lemma strReplace1_append (xs : List Char) (y : Char) (t : List Char) (c : Char) :
    strReplace1 (xs ++ y :: t) xs.length c = some (xs ++ c :: t) := by
  have hlt : xs.length < (xs ++ y :: t).length := by
    simp [List.length_append]
  simp [strReplace1, hlt, set_append_len]

/-- Running the channel loop over a frame made of a prefix run, an
unvisited run of at least `n` characters, and a tail: the first `n`
iterations overwrite the next `n` positions of each of the two frames. -/
lemma chLoopPair_run (i c : Nat) (x1 y1 x2 y2 : Char) (t1 t2 : List Char)
    (g1 g2 : Nat) :
    ∀ n, n ≤ g1 → n ≤ g2 →
    chLoopPair i c (List.replicate (i * c) x1 ++ List.replicate g1 y1 ++ t1)
                   (List.replicate (c * i) x2 ++ List.replicate g2 y2 ++ t2) n
      = some
        (List.replicate (i * c) x1 ++ List.replicate n 'P'
            ++ (List.replicate (g1 - n) y1 ++ t1),
         List.replicate (c * i) x2 ++ List.replicate n 'R'
            ++ (List.replicate (g2 - n) y2 ++ t2)) := by
  intro n
  induction n with
  | zero => intro _ _; simp [chLoopPair]
  | succ n ih =>
    intro hn1 hn2
    have h1 : n ≤ g1 := Nat.le_of_succ_le hn1
    have h2 : n ≤ g2 := Nat.le_of_succ_le hn2
    have e1 : List.replicate (g1 - n) y1 ++ t1
        = y1 :: (List.replicate (g1 - (n + 1)) y1 ++ t1) := by
      rw [show g1 - n = (g1 - (n + 1)) + 1 from by omega, List.replicate_succ]
      simp
    have e2 : List.replicate (g2 - n) y2 ++ t2
        = y2 :: (List.replicate (g2 - (n + 1)) y2 ++ t2) := by
      rw [show g2 - n = (g2 - (n + 1)) + 1 from by omega, List.replicate_succ]
      simp
    have r1 := strReplace1_append (List.replicate (i * c) x1 ++ List.replicate n 'P')
      y1 (List.replicate (g1 - (n + 1)) y1 ++ t1) 'P'
    have r2 := strReplace1_append (List.replicate (c * i) x2 ++ List.replicate n 'R')
      y2 (List.replicate (g2 - (n + 1)) y2 ++ t2) 'R'
    rw [List.length_append, List.length_replicate, List.length_replicate] at r1 r2
    rw [chLoopPair, ih h1 h2, List.append_assoc, List.append_assoc, e1, e2]
    simp only [List.append_assoc] at r1 r2 ⊢
    simp [Option.bind, r1, r2, List.replicate_succ', List.append_assoc]

lemma map_range_set {α : Type} (f : Nat → α) (N i : Nat) (v : α) :
    ((List.range N).map f).set i v = (List.range N).map (fun j => if j = i then v else f j) := by
  apply List.ext_getElem
  · simp
  · intro k h1 h2
    simp only [List.length_map, List.length_range] at h1 h2
    rw [List.getElem_set]
    by_cases hk : i = k
    · simp [hk, List.getElem_map, List.getElem_range]
    · simp [hk, List.getElem_map, List.getElem_range, show ¬ k = i from fun h => hk h.symm]

lemma framesAt_getD_ref (n c m : Nat) : (framesAt n c m).getD n [] = refPartial c n m := by
  simp [framesAt, List.getD, List.getElem?_map, List.getElem?_range, Nat.lt_succ_self]

/-- One non-reference iteration `i = m` of the SDR loop sends the state
`framesAt n c m` to `framesAt n c (m+1)` (reference index `n`, `N = n+1`
SDRs, frame length `c*n + 1`). -/
lemma sdrLoop_inv (n c : Nat) (hc : 1 ≤ c) :
    ∀ m, m ≤ n →
      sdrLoop n c (c * n + 1) (framesAt n c 0) m = some (framesAt n c m) := by
  intro m
  induction m with
  | zero => intro _; rfl
  | succ m ih =>
    intro hm
    have hm' : m ≤ n := Nat.le_of_succ_le hm
    have emul : c * (m + 1) = c * m + c := by ring
    have emul2 : m * c = c * m := Nat.mul_comm m c
    have hle : c * (m + 1) ≤ c * n := Nat.mul_le_mul_left c hm
    rw [sdrLoop, ih hm']
    have hne : ¬ (m = n) := by omega
    simp only [Option.some_bind, if_neg hne, framesAt_getD_ref]
    have sp1 : List.replicate (c * n + 1) 'G'
        = List.replicate (m * c) 'G'
            ++ List.replicate (c * n + 1 - m * c) 'G' ++ ([] : List Char) := by
      rw [List.append_nil, ← List.replicate_add,
        show m * c + (c * n + 1 - m * c) = c * n + 1 from by omega]
    have hg1 : c ≤ c * n + 1 - m * c := by omega
    have hg2 : c ≤ c * n - c * m := by omega
    rw [sp1, refPartial,
      chLoopPair_run m c 'G' 'G' 'R' 'G' [] ['P'] (c * n + 1 - m * c) (c * n - c * m)
        c hg1 hg2]
    simp only [Option.some_bind]
    have hA : List.replicate (m * c) 'G' ++ List.replicate c 'P'
          ++ (List.replicate (c * n + 1 - m * c - c) 'G' ++ ([] : List Char))
        = (List.replicate (m * c) 'G' ++ List.replicate c 'P'
            ++ List.replicate (c * n - c * (m + 1)) 'G') ++ 'G' :: [] := by
      rw [List.append_nil,
        show c * n + 1 - m * c - c = (c * n - c * (m + 1)) + 1 from by omega,
        List.replicate_succ' (c * n - c * (m + 1)) 'G']
      simp [List.append_assoc]
    have hlen : (List.replicate (m * c) 'G' ++ List.replicate c 'P'
          ++ List.replicate (c * n - c * (m + 1)) 'G').length = c * n := by
      simp [List.length_append, List.length_replicate]
      omega
    have hrep : strReplace1
          (List.replicate (m * c) 'G' ++ List.replicate c 'P'
            ++ (List.replicate (c * n + 1 - m * c - c) 'G' ++ ([] : List Char)))
          (c * n) 'R'
        = some (doneFrame c n m) := by
      have hstep := strReplace1_append
        (List.replicate (m * c) 'G' ++ List.replicate c 'P'
          ++ List.replicate (c * n - c * (m + 1)) 'G') 'G' [] 'R'
      rw [hlen] at hstep
      rw [hA, hstep]
      simp [doneFrame, List.append_assoc]
    rw [hrep]
    simp only [Option.map_some']
    have hB : List.replicate (c * m) 'R' ++ List.replicate c 'R'
          ++ (List.replicate (c * n - c * m - c) 'G' ++ ['P'])
        = refPartial c n (m + 1) := by
      rw [refPartial, ← List.append_assoc, ← List.replicate_add,
        show c * m + c = c * (m + 1) from by omega,
        show c * n - c * m - c = c * n - c * (m + 1) from by omega,
        List.append_assoc]
    rw [hB]
    congr 1
    rw [framesAt, map_range_set, map_range_set, framesAt]
    apply List.map_congr_left
    intro j hj
    by_cases hjn : j = n
    · simp [hjn, hne, show ¬ (n = m) from fun h => hne h.symm]
    · by_cases hjm : j = m
      · simp [hjn, hjm, hne, show m < m + 1 from Nat.lt_succ_self m]
      · by_cases hjm' : j < m
        · simp [hjn, hjm, hjm', show j < m + 1 from by omega]
        · simp [hjn, hjm, hjm', show ¬ (j < m + 1) from by omega]

/-- With `N = n+1` SDRs and the reference the last SDR, the generator
produces exactly the closed-form frame table `framesAt n c n`. -/
lemma calibFrames_closed (n c : Nat) (hc : 1 ≤ c) :
    calibFrames (n + 1) n c = some (framesAt n c n) := by
  have hL : c * (n + 1) - (c - 1) = c * n + 1 := by
    have e : c * (n + 1) = c * n + c := by ring
    omega
  have init : strReplace1 (List.replicate (c * n + 1) 'G') (c * n) 'P'
      = some (List.replicate (c * n) 'G' ++ ['P']) := by
    have h := strReplace1_append (List.replicate (c * n) 'G') 'G' [] 'P'
    rw [List.length_replicate] at h
    rw [List.replicate_succ' (c * n) 'G']
    exact h
  have hinit : (List.replicate (n + 1) ([] : List Char)).set n
        (List.replicate (c * n) 'G' ++ ['P']) = framesAt n c 0 := by
    have hconst : List.replicate (n + 1) ([] : List Char)
        = (List.range (n + 1)).map (fun _ => ([] : List Char)) := by
      simp [List.map_const']
    rw [hconst, map_range_set, framesAt]
    apply List.map_congr_left
    intro j hj
    by_cases hjn : j = n
    · simp [hjn, refPartial]
    · simp [hjn]
  rw [calibFrames, hL, init]
  simp only [Option.some_bind]
  rw [hinit, sdrLoop, sdrLoop_inv n c hc n le_rfl]
  simp

/-- Success of the SDR loop never changes the number of frames. -/
lemma sdrLoop_length (r c L : Nat) (frames : List (List Char)) :
    ∀ k fs, sdrLoop r c L frames k = some fs → fs.length = frames.length := by
  intro k
  induction k with
  | zero =>
    intro fs h
    rw [sdrLoop] at h
    cases h
    rfl
  | succ k ih =>
    intro fs h
    rw [sdrLoop] at h
    cases hprev : sdrLoop r c L frames k with
    | none => rw [hprev] at h; simp at h
    | some fs0 =>
      rw [hprev] at h
      simp only [Option.some_bind] at h
      by_cases hir : k = r
      · rw [if_pos hir] at h
        cases h
        exact ih _ hprev
      · rw [if_neg hir] at h
        cases hch : chLoopPair k c (List.replicate L 'G') (fs0.getD r []) c with
        | none => rw [hch] at h; simp at h
        | some p =>
          rw [hch] at h
          simp only [Option.some_bind] at h
          cases hrep : strReplace1 p.1 (c * r) 'R' with
          | none => rw [hrep] at h; simp at h
          | some fi2 =>
            rw [hrep] at h
            simp only [Option.map_some'] at h
            cases h
            simp [List.length_set, ih _ hprev]

/-- Success of the generator yields exactly `N` frame strings
(the frames vector is resized to `N` and never grows). -/
lemma calibFrames_length (N r c : Nat) (fs : List (List Char))
    (h : calibFrames N r c = some fs) : fs.length = N := by
  rw [calibFrames] at h
  cases hrep : strReplace1 (List.replicate (c * N - (c - 1)) 'G') (c * r) 'P' with
  | none => rw [hrep] at h; simp at h
  | some fr0 =>
    rw [hrep] at h
    simp only [Option.some_bind] at h
    have := sdrLoop_length r c (c * N - (c - 1))
      ((List.replicate N ([] : List Char)).set r fr0) N fs h
    simpa [List.length_set, List.length_replicate] using this

lemma refPartial_last (c n : Nat) :
    refPartial c n n = List.replicate (c * n) 'R' ++ ['P'] := by
  simp [refPartial]

lemma framesAt_getD_done (n c i : Nat) (hi : i < n) :
    (framesAt n c n).getD i [] = doneFrame c n i := by
  have h1 : i < n + 1 := by omega
  simp [framesAt, List.getD, List.getElem?_map, List.getElem?_range, h1,
    show ¬ i = n from by omega, hi]

lemma getElem?_append_len {α : Type} (xs : List α) (y : α) (n : Nat)
    (h : xs.length = n) : (xs ++ [y])[n]? = some y := by
  subst h
  rw [List.getElem?_append_right le_rfl]
  simp

lemma doneFrame_getP (c n i ch : Nat) (hch : ch < c) :
    (doneFrame c n i)[c * i + ch]? = some 'P' := by
  rw [doneFrame, List.append_assoc, List.append_assoc,
    show c * i = i * c from Nat.mul_comm c i,
    List.getElem?_append_right (by simp)]
  simp [List.getElem?_append, hch, List.getElem?_replicate]

lemma doneFrame_getR (c n i : Nat) (hin : i < n) :
    (doneFrame c n i)[c * n]? = some 'R' := by
  have e : c * (i + 1) = c * i + c := by ring
  have e2 : i * c = c * i := Nat.mul_comm i c
  have hle : c * (i + 1) ≤ c * n := Nat.mul_le_mul_left c (by omega)
  rw [doneFrame]
  apply getElem?_append_len
  simp only [List.length_append, List.length_replicate]
  omega

/-- **C1** (counterexample).  With `N = 3` SDRs, reference `r = 1` and
`c = 2` channels, the generated reference frame has length 6, not
`c*N - (c-1) = 5` (the `std::string::replace` at position 5 of a length-5
string appends), and contains 4 `'R'`s, not `N - 1 = 2`: the claimed frame
shape is false as stated. -/
theorem C1_counterexample :
    ∃ fs, calibFrames 3 1 2 = some fs ∧
      (fs.getD 1 []).length ≠ 2 * 3 - (2 - 1) ∧
      (fs.getD 1 []).count 'R' ≠ 3 - 1 := by decide

/-- **C1** (amended).  When the reference SDR is the last one (`r = N - 1`),
every generated frame string has length `c*N - (c-1)`; the reference SDR's
frame is `c*(N-1)` slots of `'R'` followed by a single `'P'` at position
`c*r` (so it has exactly one `'P'` and exactly `c*(N-1)` `'R'`s, not `N-1`);
every non-reference SDR `i` gets exactly `c` `'P'`s at positions
`c*i .. c*i+c-1`, one `'R'` at `c*r`, and `'G'` everywhere else. -/
theorem C1_reciprocal_schedule_amended (N r c : Nat) (hN : 1 ≤ N) (hc : 1 ≤ c)
    (hr : r = N - 1) :
    ∃ fs, calibFrames N r c = some fs ∧
      fs.length = N ∧
      (∀ f ∈ fs, f.length = c * N - (c - 1)) ∧
      fs.getD r [] = List.replicate (c * r) 'R' ++ ['P'] ∧
      (fs.getD r []).count 'P' = 1 ∧
      (fs.getD r [])[c * r]? = some 'P' ∧
      (fs.getD r []).count 'R' = c * (N - 1) ∧
      (∀ i, i < N - 1 →
        fs.getD i [] = List.replicate (i * c) 'G' ++ List.replicate c 'P'
            ++ List.replicate (c * r - c * (i + 1)) 'G' ++ ['R'] ∧
        (fs.getD i []).count 'P' = c ∧
        (∀ ch, ch < c → (fs.getD i [])[c * i + ch]? = some 'P') ∧
        (fs.getD i [])[c * r]? = some 'R' ∧
        (fs.getD i []).count 'R' = 1) := by
  subst hr
  obtain ⟨n, rfl⟩ : ∃ n, N = n + 1 := ⟨N - 1, by omega⟩
  simp only [Nat.add_sub_cancel]
  have hL : c * (n + 1) - (c - 1) = c * n + 1 := by
    have e : c * (n + 1) = c * n + c := by ring
    omega
  refine ⟨framesAt n c n, calibFrames_closed n c hc, ?_, ?_, ?_, ?_, ?_, ?_, ?_⟩
  · simp [framesAt]
  · intro f hf
    rw [hL]
    rw [framesAt] at hf
    obtain ⟨j, hj, hfj⟩ := List.mem_map.mp hf
    rw [List.mem_range] at hj
    subst hfj
    by_cases hjn : j = n
    · simp [hjn, refPartial]
    · have hjlt : j < n := by omega
      have e : c * (j + 1) = c * j + c := by ring
      have e2 : j * c = c * j := Nat.mul_comm j c
      have hle : c * (j + 1) ≤ c * n := Nat.mul_le_mul_left c (by omega)
      simp [hjn, hjlt, doneFrame]
      omega
  · rw [framesAt_getD_ref, refPartial_last]
  · rw [framesAt_getD_ref, refPartial_last]
    simp [List.count_append, List.count_replicate]
  · rw [framesAt_getD_ref, refPartial_last]
    exact getElem?_append_len _ _ _ (by simp)
  · rw [framesAt_getD_ref, refPartial_last]
    simp [List.count_append, List.count_replicate]
  · intro i hi
    have hgd := framesAt_getD_done n c i hi
    refine ⟨?_, ?_, ?_, ?_, ?_⟩
    · rw [hgd, doneFrame]
    · rw [hgd]
      simp [doneFrame, List.count_append, List.count_replicate]
    · intro ch hch
      rw [hgd]
      exact doneFrame_getP c n i ch hch
    · rw [hgd]
      exact doneFrame_getR c n i hi
    · rw [hgd]
      simp [doneFrame, List.count_append, List.count_replicate]

/-- Witness for C1 (amended) at `N = 3`, `r = 2`, `c = 2`. -/
theorem C1_reciprocal_schedule_amended_witness :
    ∃ fs, calibFrames 3 2 2 = some fs ∧
      fs.length = 3 ∧
      (∀ f ∈ fs, f.length = 2 * 3 - (2 - 1)) ∧
      fs.getD 2 [] = List.replicate (2 * 2) 'R' ++ ['P'] ∧
      (fs.getD 2 []).count 'P' = 1 ∧
      (fs.getD 2 [])[2 * 2]? = some 'P' ∧
      (fs.getD 2 []).count 'R' = 2 * (3 - 1) ∧
      (∀ i, i < 3 - 1 →
        fs.getD i [] = List.replicate (i * 2) 'G' ++ List.replicate 2 'P'
            ++ List.replicate (2 * 2 - 2 * (i + 1)) 'G' ++ ['R'] ∧
        (fs.getD i []).count 'P' = 2 ∧
        (∀ ch, ch < 2 → (fs.getD i [])[2 * i + ch]? = some 'P') ∧
        (fs.getD i [])[2 * 2]? = some 'R' ∧
        (fs.getD i []).count 'R' = 1) :=
  C1_reciprocal_schedule_amended 3 2 2 (by decide) (by decide) (by decide)

/-- **C10** (counterexample).  With a single SDR (`N = 1`) and `c = 2`
channels, `symbols_per_frame_ = 1` equals the generated frame length
`c*N - (c-1) = 1` although `c ≠ 1`: the two values do not coincide *only*
when `c = 1`. -/
theorem C10_counterexample :
    recipSymbolsPerFrame 1 0 2 = some 1 ∧ 2 * 1 - (2 - 1) = 1 ∧ (2 : Nat) ≠ 1 := by
  decide

/-- **C10** (amended).  In reciprocal calibration mode `symbols_per_frame_`
is the number of generated frame strings in cell 0 (the SDR count `N`), not
the generated frame length `c*N - (c-1)`; the two coincide exactly when
`c = 1` or `N = 1`. -/
theorem C10_symbols_per_frame_amended (N r c : Nat) (hr : r < N) (hc : 1 ≤ c)
    (fs : List (List Char)) (h : calibFrames N r c = some fs) :
    recipSymbolsPerFrame N r c = some N ∧
    (N = c * N - (c - 1) ↔ (c = 1 ∨ N = 1)) := by
  have hlen := calibFrames_length N r c fs h
  constructor
  · rw [recipSymbolsPerFrame, h, Option.map_some', hlen]
  · constructor
    · intro he
      by_contra hcon
      push_neg at hcon
      obtain ⟨hc1, hN1⟩ := hcon
      obtain ⟨c2, rfl⟩ : ∃ c2, c = c2 + 2 := ⟨c - 2, by omega⟩
      obtain ⟨n2, rfl⟩ : ∃ n2, N = n2 + 2 := ⟨N - 2, by omega⟩
      have e : (c2 + 2) * (n2 + 2) = c2 * n2 + 2 * c2 + 2 * n2 + 4 := by ring
      omega
    · intro hor
      rcases hor with h1 | h1
      · subst h1
        simp
      · subst h1
        have e1 : c * 1 = c := Nat.mul_one c
        omega

/-- Witness for C10 (amended) at `N = 3`, `r = 1`, `c = 2`. -/
theorem C10_symbols_per_frame_amended_witness :
    recipSymbolsPerFrame 3 1 2 = some 3 ∧
    (3 = 2 * 3 - (2 - 1) ↔ ((2 : Nat) = 1 ∨ (3 : Nat) = 1)) :=
  C10_symbols_per_frame_amended 3 1 2 (by decide) (by decide)
    [['P','P','R','G','G'], ['R','R','P','G','R','R'], ['G','G','R','G','P','P']]
    (by decide)

/-! ### PHY derivation, beacon and pilot composition (`Config::Config`)

The constructor tail common to all configurations (config.cc lines 70-72
and 303-407): derived sizes, beacon composition and size check, fft/cp
clamping, pilot composition and packing.  The sample sequences produced by
`CommsLib::getSequence` and the packing helpers in `Utils` live in files
that are not part of src/; they enter the model as parameters or as
spec-modelled definitions.
-/

/-- A complex int16 sample, as an (I, Q) pair of integers. -/
abbrev CI16 := Int × Int

def kFpgaTxRamSize : Nat := 4096

def kMaxSupportedFFTSize : Nat := 2048

def kMinSupportedFFTSize : Nat := 64

def kMaxSupportedCPSize : Nat := 128

/-- The json values consumed by the constructor tail (config.cc lines 65-69). -/
structure CfgIn where
  fft_size : Nat
  cp_size : Nat
  symbol_per_subframe : Nat
  prefix_ : Nat
  postfix_ : Nat
deriving DecidableEq

/-- The `Config` members written by the constructor tail. -/
structure CfgSt where
  fft_size_ : Nat
  cp_size_ : Nat
  symbol_per_subframe_ : Nat
  prefix_ : Nat
  postfix_ : Nat
  ofdm_symbol_size_ : Nat
  subframe_size_ : Nat
  samps_per_symbol_ : Nat
  beacon_size_ : Nat
  beacon_ci16_ : List CI16
  pilot_ci16_ : List CI16
  pilot_ : List Nat
deriving DecidableEq

/-- Failures of the constructor tail:
`beaconSize` is the `std::invalid_argument` thrown at config.cc line 343;
`pilotCpRange` marks the undefined iterator arithmetic `end() - cp_size_`
at line 392 when `cp_size_` exceeds the pilot sequence length;
`pilotOverflow` marks the `size_t` wrap-around of
`kFpgaTxRamSize - pilot_.size()` at line 404, whose push_back loop is then
guaranteed to throw `std::length_error`. -/
inductive CfgError
  | beaconSize
  | pilotCpRange
  | pilotOverflow
deriving DecidableEq

/-- Modelled from the spec: `Utils::cint16_to_uint32(v, false, "QI")`
(utils.cc is not under src/) packs each complex-int16 sample into one
uint32 word, component interleave "QI", so the packed vector has one word
per sample. -/
def cint16_to_uint32 (v : List CI16) : List Nat :=
  v.map (fun s => (s.2 % 65536).toNat * 65536 + (s.1 % 65536).toNat)

/-- The beacon before padding (config.cc lines 324-336): 15 repetitions of
the STS sequence followed by 2 repetitions of the gold-IFFT sequence. -/
def composeBeacon (sts_seq_ci16 gold_ifft_ci16 : List CI16) : List CI16 :=
  (List.replicate 15 sts_seq_ci16).flatten ++ (List.replicate 2 gold_ifft_ci16).flatten

/-- The constructor tail (config.cc lines 70-72 and 303-407), from the
parsed json values and the CommsLib sample sequences (`sts_seq_ci16`,
`gold_ifft_ci16`, and the selected time-domain pilot `pilot_sym_ci16`,
already converted by `Utils::float_to_cint16`; CommsLib and Utils are not
under src/). -/
def configCompose (inp : CfgIn)
    (sts_seq_ci16 gold_ifft_ci16 pilot_sym_ci16 : List CI16) :
    Except CfgError CfgSt :=
  -- lines 70-72: derived quantities, computed before any clamping
  let ofdm_symbol_size := inp.fft_size + inp.cp_size
  let subframe_size := inp.symbol_per_subframe * ofdm_symbol_size
  let samps_per_symbol := subframe_size + inp.prefix_ + inp.postfix_
  -- lines 324-338: compose the beacon and record its size
  let beacon0 := composeBeacon sts_seq_ci16 gold_ifft_ci16
  let beacon_size := beacon0.length
  -- lines 340-344: fatal size check
  if samps_per_symbol < beacon_size + inp.prefix_ + inp.postfix_ then
    .error .beaconSize
  else
    -- lines 349-356: pad the beacon to prefix + subframe + postfix
    let beacon_ci16 := List.replicate inp.prefix_ ((0, 0) : CI16) ++ beacon0
      ++ List.replicate (subframe_size - beacon_size) ((0, 0) : CI16)
      ++ List.replicate inp.postfix_ ((0, 0) : CI16)
    -- lines 359-375: clamping of fft_size_ and cp_size_ (derived sizes are
    -- not recomputed afterwards)
    let fft1 := if inp.fft_size > kMaxSupportedFFTSize then kMaxSupportedFFTSize
      else inp.fft_size
    let fft2 := if fft1 < kMinSupportedFFTSize then kMinSupportedFFTSize else fft1
    let cp2 := if inp.cp_size > kMaxSupportedCPSize then 0 else inp.cp_size
    -- lines 391-392: prepend the cyclic prefix (the last cp2 pilot samples)
    if pilot_sym_ci16.length < cp2 then .error .pilotCpRange
    else
      let iq_ci16 := pilot_sym_ci16.drop (pilot_sym_ci16.length - cp2)
        ++ pilot_sym_ci16
      -- lines 394-400: prefix + symbol_per_subframe repetitions + postfix
      let pilot_ci16 := List.replicate inp.prefix_ ((0, 0) : CI16)
        ++ (List.replicate inp.symbol_per_subframe iq_ci16).flatten
        ++ List.replicate inp.postfix_ ((0, 0) : CI16)
      -- line 402: packed form
      let pilot0 := cint16_to_uint32 pilot_ci16
      -- lines 404-407: zero-extension to the FPGA TX RAM size
      if kFpgaTxRamSize < pilot0.length then .error .pilotOverflow
      else
        .ok { fft_size_ := fft2, cp_size_ := cp2,
              symbol_per_subframe_ := inp.symbol_per_subframe,
              prefix_ := inp.prefix_, postfix_ := inp.postfix_,
              ofdm_symbol_size_ := ofdm_symbol_size,
              subframe_size_ := subframe_size,
              samps_per_symbol_ := samps_per_symbol,
              beacon_size_ := beacon_size,
              beacon_ci16_ := beacon_ci16,
              pilot_ci16_ := pilot_ci16,
              pilot_ := pilot0 ++ List.replicate (kFpgaTxRamSize - pilot0.length) 0 }

lemma composeBeacon_length (sts gold : List CI16) :
    (composeBeacon sts gold).length = 15 * sts.length + 2 * gold.length := by
  simp [composeBeacon]
  ring

lemma flatten_replicate_length {α : Type} (n : Nat) (l : List α) :
    (List.replicate n l).flatten.length = n * l.length := by
  induction n with
  | zero => simp
  | succ k ih =>
    simp [List.replicate_succ, ih]
    ring

/-- Concrete stand-ins for the CommsLib sequences, used in witnesses:
only their lengths (16, 128, and a 64-sample pilot) matter. -/
def stsTest : List CI16 := List.replicate 16 ((0, 0) : CI16)

def goldTest : List CI16 := List.replicate 128 ((0, 0) : CI16)

def pilotTest : List CI16 := List.replicate 64 ((0, 0) : CI16)

/-- The error chain after the beacon size check can never produce the
beacon-size error again. -/
lemma chain_ne_beaconSize (a b : Prop) [Decidable a] [Decidable b] (x : CfgSt) :
    (if a then (Except.error CfgError.pilotCpRange : Except CfgError CfgSt)
     else if b then Except.error CfgError.pilotOverflow
     else Except.ok x) ≠ Except.error CfgError.beaconSize := by
  split
  · simp
  · split <;> simp

/-- **C2** (counterexample).  With configured `fft_size = 4096` (clamped to
2048 during construction) the constructor completes, yet
`ofdm_symbol_size_ = 4096 ≠ fft_size_ + cp_size_ = 2048`: the derived
quantities are computed at lines 70-72 from the pre-clamp values and never
recomputed after clamping. -/
theorem C2_counterexample :
    (configCompose ⟨4096, 0, 1, 0, 0⟩ stsTest goldTest pilotTest).toOption.map
        (fun st => (st.ofdm_symbol_size_, st.fft_size_, st.cp_size_))
      = some (4096, 2048, 0) ∧ (4096 : Nat) ≠ 2048 + 0 := by
  constructor
  · rfl
  · decide

/-- **C2** (amended).  After construction completes, the derived PHY
quantities satisfy `ofdm_symbol_size_ = fft_size_ + cp_size_`,
`subframe_size_ = symbol_per_subframe_ * ofdm_symbol_size_` and
`samps_per_symbol_ = subframe_size_ + prefix_ + postfix_`, provided the
configured `fft_size` lies in `[64, 2048]` and `cp_size ≤ 128`, so that no
clamping occurs (the equations are always true of the pre-clamp configured
values, but clamping rewrites `fft_size_`/`cp_size_` without recomputing
the derived sizes). -/
theorem C2_derived_sizes_amended (inp : CfgIn) (sts gold psym : List CI16)
    (st : CfgSt)
    (hmin : 64 ≤ inp.fft_size) (hmax : inp.fft_size ≤ 2048)
    (hcp : inp.cp_size ≤ 128)
    (h : configCompose inp sts gold psym = .ok st) :
    st.ofdm_symbol_size_ = st.fft_size_ + st.cp_size_ ∧
    st.subframe_size_ = st.symbol_per_subframe_ * st.ofdm_symbol_size_ ∧
    st.samps_per_symbol_ = st.subframe_size_ + st.prefix_ + st.postfix_ := by
  simp only [configCompose] at h
  rw [if_neg (show ¬ inp.fft_size > kMaxSupportedFFTSize from by
    simp only [kMaxSupportedFFTSize]; omega)] at h
  rw [if_neg (show ¬ inp.fft_size < kMinSupportedFFTSize from by
    simp only [kMinSupportedFFTSize]; omega)] at h
  rw [if_neg (show ¬ inp.cp_size > kMaxSupportedCPSize from by
    simp only [kMaxSupportedCPSize]; omega)] at h
  split at h
  · simp at h
  · split at h
    · simp at h
    · split at h
      · simp at h
      · cases h
        exact ⟨rfl, rfl, rfl⟩

/-- Witness for C2 (amended) at `fft_size = 64`, `cp_size = 16`,
`symbol_per_subframe = 7`. -/
theorem C2_derived_sizes_amended_witness :
    ∃ st, configCompose ⟨64, 16, 7, 0, 0⟩ stsTest goldTest pilotTest = .ok st ∧
      (st.ofdm_symbol_size_ = st.fft_size_ + st.cp_size_ ∧
       st.subframe_size_ = st.symbol_per_subframe_ * st.ofdm_symbol_size_ ∧
       st.samps_per_symbol_ = st.subframe_size_ + st.prefix_ + st.postfix_) := by
  rcases hok : configCompose ⟨64, 16, 7, 0, 0⟩ stsTest goldTest pilotTest with e | st
  · exfalso
    have h2 : (configCompose ⟨64, 16, 7, 0, 0⟩ stsTest goldTest pilotTest).isOk = true := by rfl
    rw [hok] at h2
    simp [Except.isOk, Except.toBool] at h2
  · exact ⟨st, rfl,
      C2_derived_sizes_amended _ _ _ _ st (by decide) (by decide) (by decide) hok⟩

/-- **C3** (confirmed).  Config construction throws (`std::invalid_argument`
at config.cc line 343) exactly when
`samps_per_symbol_ < beacon_size_ + prefix_ + postfix_`, with
`samps_per_symbol_ = symbol_per_subframe*(fft_size+cp_size)+prefix+postfix`
its pre-clamp value and `beacon_size_ = 15*|sts| + 2*|gold|` the composed
beacon length; when the inequality `≥` holds, this check never fires. -/
theorem C3_beacon_size_check (inp : CfgIn) (sts gold psym : List CI16) :
    (inp.symbol_per_subframe * (inp.fft_size + inp.cp_size)
        + inp.prefix_ + inp.postfix_
        < 15 * sts.length + 2 * gold.length + inp.prefix_ + inp.postfix_ →
      configCompose inp sts gold psym = .error .beaconSize) ∧
    (15 * sts.length + 2 * gold.length + inp.prefix_ + inp.postfix_
        ≤ inp.symbol_per_subframe * (inp.fft_size + inp.cp_size)
          + inp.prefix_ + inp.postfix_ →
      configCompose inp sts gold psym ≠ .error .beaconSize) := by
  constructor
  · intro hlt
    simp only [configCompose]
    rw [if_pos (show inp.symbol_per_subframe * (inp.fft_size + inp.cp_size)
        + inp.prefix_ + inp.postfix_
        < (composeBeacon sts gold).length + inp.prefix_ + inp.postfix_ from by
      rw [composeBeacon_length]; exact hlt)]
  · intro hge
    simp only [configCompose]
    rw [if_neg (show ¬ (inp.symbol_per_subframe * (inp.fft_size + inp.cp_size)
        + inp.prefix_ + inp.postfix_
        < (composeBeacon sts gold).length + inp.prefix_ + inp.postfix_) from by
      rw [composeBeacon_length]; omega)]
    exact chain_ne_beaconSize _ _ _

/-- Witness for C3: `fft=cp=0` makes the check throw; `fft=64, cp=16,
symbol_per_subframe=7` (560 ≥ 496) does not. -/
theorem C3_beacon_size_check_witness :
    configCompose ⟨0, 0, 1, 0, 0⟩ stsTest goldTest pilotTest
      = .error .beaconSize ∧
    configCompose ⟨64, 16, 7, 0, 0⟩ stsTest goldTest pilotTest
      ≠ .error .beaconSize :=
  ⟨(C3_beacon_size_check ⟨0, 0, 1, 0, 0⟩ stsTest goldTest pilotTest).1 (by decide),
   (C3_beacon_size_check ⟨64, 16, 7, 0, 0⟩ stsTest goldTest pilotTest).2 (by decide)⟩

/-- **C4** (counterexample).  With the 16-sample STS and 128-sample
gold-IFFT sequences, a completed configuration has
`beacon_size_ = 15*16 + 2*128 = 496`, not 464: the claimed total 464 is an
arithmetic error (`15*16 + 2*128 = 240 + 256 = 496`). -/
theorem C4_counterexample :
    (configCompose ⟨64, 16, 7, 0, 0⟩ stsTest goldTest pilotTest).toOption.map
        (fun st => st.beacon_size_) = some 496 ∧
    15 * 16 + 2 * 128 = 496 ∧ (496 : Nat) ≠ 464 := by
  refine ⟨?_, by decide, by decide⟩
  rfl

/-- **C4** (amended).  The composed beacon sequence (before prefix/postfix
padding) is 15 repetitions of the STS sequence followed by 2 repetitions of
the gold-IFFT sequence; with the 16-sample STS and 128-sample gold-IFFT
sequences of CommsLib, `beacon_size_ = 15*16 + 2*128 = 496` in every
completed configuration. -/
theorem C4_beacon_composition_amended (inp : CfgIn) (sts gold psym : List CI16)
    (st : CfgSt) (hsts : sts.length = 16) (hgold : gold.length = 128)
    (h : configCompose inp sts gold psym = .ok st) :
    st.beacon_size_ = 15 * 16 + 2 * 128 ∧
    st.beacon_size_ = 496 ∧
    (composeBeacon sts gold).take 240 = (List.replicate 15 sts).flatten ∧
    (composeBeacon sts gold).drop 240 = gold ++ gold := by
  have hbs : st.beacon_size_ = (composeBeacon sts gold).length := by
    simp only [configCompose] at h
    repeat' split at h
    all_goals cases h
    all_goals rfl
  have hlen := composeBeacon_length sts gold
  rw [hsts, hgold] at hlen
  have hA : ((List.replicate 15 sts).flatten).length = 240 := by
    rw [flatten_replicate_length, hsts]
  refine ⟨hbs.trans hlen, ?_, ?_, ?_⟩
  · rw [hbs, hlen]
  · rw [composeBeacon, ← hA, List.take_left]
  · rw [composeBeacon, ← hA, List.drop_left]
    simp [List.replicate_succ]

/-- Witness for C4 (amended) with the concrete length-16 STS and
length-128 gold sequences. -/
theorem C4_beacon_composition_amended_witness :
    ∃ st, configCompose ⟨64, 16, 7, 0, 0⟩ stsTest goldTest pilotTest = .ok st ∧
      (st.beacon_size_ = 15 * 16 + 2 * 128 ∧
       st.beacon_size_ = 496 ∧
       (composeBeacon stsTest goldTest).take 240
          = (List.replicate 15 stsTest).flatten ∧
       (composeBeacon stsTest goldTest).drop 240 = goldTest ++ goldTest) := by
  rcases hok : configCompose ⟨64, 16, 7, 0, 0⟩ stsTest goldTest pilotTest with e | st
  · exfalso
    have h2 : (configCompose ⟨64, 16, 7, 0, 0⟩ stsTest goldTest pilotTest).isOk = true := by rfl
    rw [hok] at h2
    simp [Except.isOk, Except.toBool] at h2
  · exact ⟨st, rfl,
      C4_beacon_composition_amended _ _ _ _ st (by decide) (by decide) hok⟩

/-- **C5** (confirmed).  Every completed configuration leaves the packed
pilot buffer `pilot_` zero-extended to exactly `kFpgaTxRamSize = 4096`
entries (a configuration whose packed pilot exceeds 4096 samples never
completes: the `size_t` subtraction at line 404 wraps and the push_back
loop throws). -/
theorem C5_pilot_padded_to_tx_ram (inp : CfgIn) (sts gold psym : List CI16)
    (st : CfgSt) (h : configCompose inp sts gold psym = .ok st) :
    st.pilot_.length = kFpgaTxRamSize ∧ kFpgaTxRamSize = 4096 ∧
    st.pilot_ = cint16_to_uint32 st.pilot_ci16_
      ++ List.replicate
          (kFpgaTxRamSize - (cint16_to_uint32 st.pilot_ci16_).length) 0 := by
  simp only [configCompose] at h
  repeat' split at h
  all_goals cases h
  all_goals
    refine ⟨?_, rfl, rfl⟩
    simp only [List.length_append, List.length_replicate]
    simp only [kFpgaTxRamSize] at *
    omega

/-- Witness for C5 at a completing configuration (packed pilot 560 ≤ 4096). -/
theorem C5_pilot_padded_to_tx_ram_witness :
    ∃ st, configCompose ⟨64, 16, 7, 0, 0⟩ stsTest goldTest pilotTest = .ok st ∧
      (st.pilot_.length = kFpgaTxRamSize ∧ kFpgaTxRamSize = 4096 ∧
       st.pilot_ = cint16_to_uint32 st.pilot_ci16_
        ++ List.replicate
            (kFpgaTxRamSize - (cint16_to_uint32 st.pilot_ci16_).length) 0) := by
  rcases hok : configCompose ⟨64, 16, 7, 0, 0⟩ stsTest goldTest pilotTest with e | st
  · exfalso
    have h2 : (configCompose ⟨64, 16, 7, 0, 0⟩ stsTest goldTest pilotTest).isOk = true := by rfl
    rw [hok] at h2
    simp [Except.isOk, Except.toBool] at h2
  · exact ⟨st, rfl, C5_pilot_padded_to_tx_ram _ _ _ _ st hok⟩

/-- **C6** (confirmed).  After construction completes,
`fft_size_ ∈ [64, 2048]` and `cp_size_ ≤ 128`: configured values above 2048
become 2048, below 64 become 64, and a `cp_size` above 128 is replaced
(by 0, which satisfies the bound). -/
theorem C6_fft_cp_clamped (inp : CfgIn) (sts gold psym : List CI16)
    (st : CfgSt) (h : configCompose inp sts gold psym = .ok st) :
    64 ≤ st.fft_size_ ∧ st.fft_size_ ≤ 2048 ∧ st.cp_size_ ≤ 128 := by
  simp only [configCompose] at h
  repeat' split at h
  all_goals cases h
  all_goals
    refine ⟨?_, ?_, ?_⟩ <;>
      (dsimp only
       simp only [kMaxSupportedFFTSize, kMinSupportedFFTSize,
         kMaxSupportedCPSize] at *
       omega)

/-- Witness for C6 at a configuration whose `fft_size = 4096` and
`cp_size = 200` are both out of range and get replaced. -/
theorem C6_fft_cp_clamped_witness :
    ∃ st, configCompose ⟨4096, 200, 1, 0, 0⟩ stsTest goldTest pilotTest = .ok st ∧
      (64 ≤ st.fft_size_ ∧ st.fft_size_ ≤ 2048 ∧ st.cp_size_ ≤ 128) := by
  rcases hok : configCompose ⟨4096, 200, 1, 0, 0⟩ stsTest goldTest pilotTest with e | st
  · exfalso
    have h2 : (configCompose ⟨4096, 200, 1, 0, 0⟩ stsTest goldTest pilotTest).isOk = true := by rfl
    rw [hok] at h2
    simp [Except.isOk, Except.toBool] at h2
  · exact ⟨st, rfl, C6_fft_cp_clamped _ _ _ _ st hok⟩

/-! ### Slot-schedule queries (config.cc lines 623-696)

`frame_id` and `symbol_id` are C++ `int`s; comparisons against the stored
`size_t` slot indices and the `std::string::at` index first convert them to
`size_t` (64-bit, two's complement). -/

/-- The `int → size_t` conversion (two's complement, 64 bit). -/
def usize (i : Int) : Nat := (i % (2 : Int) ^ 64).toNat

/-- Modelled from the spec: `Utils::loadSymbols(frames, sym)` (utils.cc is
not under src/) derives, per frame, the ordered list of slot indices at
which the role character `sym` appears. -/
def loadSymbols (frames : List (List Char)) (sym : Char) : List (List Nat) :=
  frames.map (fun f => (List.range f.length).filter (fun i => f.getD i ' ' == sym))

/-- The schedule state used by the queries: `reciprocal_calib_` and the
per-cell frame strings `frames_`.  The `frames_.size() = 0` case would be a
division by zero (`frame_id % frames_.size()`) in the C++, so the theorems
assume a nonempty frame list. -/
structure Sched where
  reciprocal_calib_ : Bool
  frames_ : List (List Char)

def pilot_symbols_ (s : Sched) : List (List Nat) := loadSymbols s.frames_ 'P'

def noise_symbols_ (s : Sched) : List (List Nat) := loadSymbols s.frames_ 'N'

def ul_symbols_ (s : Sched) : List (List Nat) := loadSymbols s.frames_ 'U'

def dl_symbols_ (s : Sched) : List (List Nat) := loadSymbols s.frames_ 'D'

/-- `std::find` over a vector of slot indices followed by iterator
subtraction: the zero-based index of the first element equal to `x`. -/
def findFirst (v : List Nat) (x : Nat) : Option Nat :=
  match v with
  | [] => none
  | a :: t => if a = x then some 0 else (findFirst t x).map (· + 1)

/-- `Config::getClientId` (config.cc lines 623-635). -/
def getClientId (s : Sched) (frame_id symbol_id : Int) : Int :=
  if s.reciprocal_calib_ then symbol_id
  else
    match findFirst ((pilot_symbols_ s).getD (usize frame_id % s.frames_.length) [])
        (usize symbol_id) with
    | some k => (k : Int)
    | none => -1

/-- `Config::getNoiseSFIndex` (config.cc lines 637-646). -/
def getNoiseSFIndex (s : Sched) (frame_id symbol_id : Int) : Int :=
  match findFirst ((noise_symbols_ s).getD (usize frame_id % s.frames_.length) [])
      (usize symbol_id) with
  | some k => (k : Int)
  | none => -1

/-- `Config::getUlSFIndex` (config.cc lines 648-658). -/
def getUlSFIndex (s : Sched) (frame_id symbol_id : Int) : Int :=
  match findFirst ((ul_symbols_ s).getD (usize frame_id % s.frames_.length) [])
      (usize symbol_id) with
  | some k => (k : Int)
  | none => -1

/-- `Config::getDlSFIndex` (config.cc lines 660-669). -/
def getDlSFIndex (s : Sched) (frame_id symbol_id : Int) : Int :=
  match findFirst ((dl_symbols_ s).getD (usize frame_id % s.frames_.length) [])
      (usize symbol_id) with
  | some k => (k : Int)
  | none => -1

/-- `Config::isPilot` (config.cc lines 671-678): `frames_[fid].at(symbol_id)`
throws `std::out_of_range` for an out-of-bounds (converted) index and the
catch block returns false. -/
def isPilot (s : Sched) (frame_id symbol_id : Int) : Bool :=
  let f := s.frames_.getD (usize frame_id % s.frames_.length) []
  if usize symbol_id < f.length then f.getD (usize symbol_id) ' ' == 'P' else false

/-- `Config::isNoise` (config.cc lines 680-687). -/
def isNoise (s : Sched) (frame_id symbol_id : Int) : Bool :=
  let f := s.frames_.getD (usize frame_id % s.frames_.length) []
  if usize symbol_id < f.length then f.getD (usize symbol_id) ' ' == 'N' else false

/-- `Config::isData` (config.cc lines 689-696): checks for `'U'`. -/
def isData (s : Sched) (frame_id symbol_id : Int) : Bool :=
  let f := s.frames_.getD (usize frame_id % s.frames_.length) []
  if usize symbol_id < f.length then f.getD (usize symbol_id) ' ' == 'U' else false

lemma usize_of_nonneg (i : Int) (h0 : 0 ≤ i) (h1 : i < 2 ^ 64) :
    usize i = i.toNat := by
  simp only [usize]
  omega

lemma usize_of_neg (i : Int) (hlo : -(2 : Int) ^ 31 ≤ i) (hneg : i < 0) :
    2 ^ 31 ≤ usize i := by
  simp only [usize]
  omega

lemma getD_mem {α : Type} (l : List α) (i : Nat) (d : α) (h : i < l.length) :
    l.getD i d ∈ l := by
  rw [List.getD_eq_getElem l d h]
  exact List.getElem_mem h

lemma loadSymbols_getD (frames : List (List Char)) (sym : Char) (fid : Nat)
    (h : fid < frames.length) :
    (loadSymbols frames sym).getD fid []
      = (List.range (frames.getD fid []).length).filter
          (fun i => (frames.getD fid []).getD i ' ' == sym) := by
  have h1 : frames[fid]? = some frames[fid] := List.getElem?_eq_getElem h
  simp [loadSymbols, List.getD, List.getElem?_map, h1]

lemma mem_loadSymbols_getD_lt (frames : List (List Char)) (sym : Char)
    (fid p : Nat) (hfid : fid < frames.length)
    (hp : p ∈ (loadSymbols frames sym).getD fid []) :
    p < (frames.getD fid []).length := by
  rw [loadSymbols_getD frames sym fid hfid] at hp
  exact List.mem_range.mp (List.mem_filter.mp hp).1

lemma loadSymbols_getD_nodup (frames : List (List Char)) (sym : Char)
    (fid : Nat) (hfid : fid < frames.length) :
    ((loadSymbols frames sym).getD fid []).Nodup := by
  rw [loadSymbols_getD frames sym fid hfid]
  exact (List.nodup_range _).filter _

lemma findFirst_eq_none (v : List Nat) (x : Nat) (h : ∀ p ∈ v, p ≠ x) :
    findFirst v x = none := by
  induction v with
  | nil => rfl
  | cons a t ih =>
    have ha : ¬ a = x := h a (List.mem_cons_self a t)
    simp [findFirst, ha, ih (fun p hp => h p (List.mem_cons_of_mem a hp))]

lemma findFirst_eq_some (v : List Nat) (x : Nat) :
    ∀ k, v.Nodup → v[k]? = some x → findFirst v x = some k := by
  induction v with
  | nil => intro k _ hk; simp at hk
  | cons a t ih =>
    intro k hnd hk
    cases k with
    | zero =>
      simp only [List.getElem?_cons_zero, Option.some.injEq] at hk
      simp [findFirst, hk]
    | succ k =>
      simp only [List.getElem?_cons_succ] at hk
      have hnd2 := List.nodup_cons.mp hnd
      have hax : ¬ a = x := by
        intro he
        exact hnd2.1 (he ▸ List.getElem?_mem hk)
      simp [findFirst, hax, ih k hnd2.2 hk]

/-- **C7** (confirmed).  `getClientId(frame_id, symbol_id)` returns
`symbol_id` unchanged in reciprocal calibration mode; otherwise, with
`fid = frame_id mod |frames|`, it returns the zero-based ordinal of
`symbol_id` within the ordered pilot-slot list of frame `fid` when
`symbol_id` is a pilot slot there, and `-1` otherwise; in particular, for
one cell with frame `"BGPGUGDGN"`, `getClientId(0,2) = 0`. -/
theorem C7_getClientId_spec (s : Sched) (frame_id symbol_id : Int)
    (hne : s.frames_ ≠ [])
    (hf0 : 0 ≤ frame_id) (hf1 : frame_id < 2 ^ 31)
    (hs0 : -(2 : Int) ^ 31 ≤ symbol_id) (hs1 : symbol_id < 2 ^ 31)
    (hlen : ∀ f ∈ s.frames_, f.length ≤ 2 ^ 31) :
    (s.reciprocal_calib_ = true → getClientId s frame_id symbol_id = symbol_id) ∧
    (s.reciprocal_calib_ = false →
      (∀ (k p : Nat),
          ((pilot_symbols_ s).getD (frame_id.toNat % s.frames_.length) [])[k]?
            = some p → (p : Int) = symbol_id →
        getClientId s frame_id symbol_id = (k : Int)) ∧
      ((∀ p ∈ (pilot_symbols_ s).getD (frame_id.toNat % s.frames_.length) [],
          (p : Int) ≠ symbol_id) →
        getClientId s frame_id symbol_id = -1)) ∧
    getClientId ⟨false, [['B','G','P','G','U','G','D','G','N']]⟩ 0 2 = 0 := by
  have hflen : 0 < s.frames_.length := List.length_pos.mpr hne
  have hfid : usize frame_id = frame_id.toNat := usize_of_nonneg _ hf0 (by omega)
  have hfidlt : frame_id.toNat % s.frames_.length < s.frames_.length :=
    Nat.mod_lt _ hflen
  refine ⟨?_, fun hr => ⟨?_, ?_⟩, ?_⟩
  · intro hr
    simp [getClientId, hr]
  · intro k p hk hpe
    have hs00 : 0 ≤ symbol_id := hpe ▸ Int.natCast_nonneg p
    have husym : usize symbol_id = p := by
      rw [usize_of_nonneg _ hs00 (by omega)]
      omega
    have hnd := loadSymbols_getD_nodup s.frames_ 'P'
      (frame_id.toNat % s.frames_.length) hfidlt
    have hff := findFirst_eq_some
      ((pilot_symbols_ s).getD (frame_id.toNat % s.frames_.length) [])
      (usize symbol_id) k hnd (by rw [husym]; exact hk)
    simp only [List.getD_eq_getElem?_getD] at hff
    simp [getClientId, hr, hfid, hff]
  · intro hnone
    have hff : findFirst
        ((pilot_symbols_ s).getD (frame_id.toNat % s.frames_.length) [])
        (usize symbol_id) = none := by
      apply findFirst_eq_none
      intro p hp he
      rcases lt_or_le symbol_id 0 with hneg | hpos
      · have h31 := usize_of_neg symbol_id hs0 hneg
        have hplt := mem_loadSymbols_getD_lt s.frames_ 'P' _ p hfidlt hp
        have hfl := hlen _ (getD_mem s.frames_ (frame_id.toNat % s.frames_.length) [] hfidlt)
        omega
      · have hu : usize symbol_id = symbol_id.toNat :=
          usize_of_nonneg _ hpos (by omega)
        exact hnone p hp (by omega)
    simp only [List.getD_eq_getElem?_getD] at hff
    simp [getClientId, hr, hfid, hff]
  · decide

/-- Witness for C7 on the schedule `"BGPGUGDGN"` at `(frame 0, slot 2)`. -/
theorem C7_getClientId_spec_witness :
    ((⟨false, [['B','G','P','G','U','G','D','G','N']]⟩ : Sched).reciprocal_calib_ = true →
      getClientId ⟨false, [['B','G','P','G','U','G','D','G','N']]⟩ 0 2 = 2) ∧
    ((⟨false, [['B','G','P','G','U','G','D','G','N']]⟩ : Sched).reciprocal_calib_ = false →
      (∀ (k p : Nat),
          ((pilot_symbols_ ⟨false, [['B','G','P','G','U','G','D','G','N']]⟩).getD
            ((0 : Int).toNat % (⟨false, [['B','G','P','G','U','G','D','G','N']]⟩ : Sched).frames_.length) [])[k]?
            = some p → (p : Int) = 2 →
        getClientId ⟨false, [['B','G','P','G','U','G','D','G','N']]⟩ 0 2 = (k : Int)) ∧
      ((∀ p ∈ (pilot_symbols_ ⟨false, [['B','G','P','G','U','G','D','G','N']]⟩).getD
            ((0 : Int).toNat % (⟨false, [['B','G','P','G','U','G','D','G','N']]⟩ : Sched).frames_.length) [],
          (p : Int) ≠ 2) →
        getClientId ⟨false, [['B','G','P','G','U','G','D','G','N']]⟩ 0 2 = -1)) ∧
    getClientId ⟨false, [['B','G','P','G','U','G','D','G','N']]⟩ 0 2 = 0 :=
  C7_getClientId_spec ⟨false, [['B','G','P','G','U','G','D','G','N']]⟩ 0 2
    (by decide) (by decide) (by decide) (by decide) (by decide) (by decide)

/-- **C8** (confirmed).  For every out-of-range `symbol_id` (negative, or at
least the frame-string length), the slot predicates `isPilot`, `isNoise`,
`isData` return false and the index queries `getNoiseSFIndex`,
`getUlSFIndex`, `getDlSFIndex` return `-1`; the `std::out_of_range` thrown
by `.at` inside the predicates is caught and never propagates. -/
theorem C8_out_of_range_queries (s : Sched) (frame_id symbol_id : Int)
    (hne : s.frames_ ≠ [])
    (hf0 : 0 ≤ frame_id) (hf1 : frame_id < 2 ^ 31)
    (hs0 : -(2 : Int) ^ 31 ≤ symbol_id) (hs1 : symbol_id < 2 ^ 31)
    (hlen : ∀ f ∈ s.frames_, f.length ≤ 2 ^ 31)
    (hoor : symbol_id < 0 ∨
      ((s.frames_.getD (frame_id.toNat % s.frames_.length) []).length : Int)
        ≤ symbol_id) :
    isPilot s frame_id symbol_id = false ∧
    isNoise s frame_id symbol_id = false ∧
    isData s frame_id symbol_id = false ∧
    getNoiseSFIndex s frame_id symbol_id = -1 ∧
    getUlSFIndex s frame_id symbol_id = -1 ∧
    getDlSFIndex s frame_id symbol_id = -1 := by
  have hflen : 0 < s.frames_.length := List.length_pos.mpr hne
  have hfid : usize frame_id = frame_id.toNat := usize_of_nonneg _ hf0 (by omega)
  have hfidlt : frame_id.toNat % s.frames_.length < s.frames_.length :=
    Nat.mod_lt _ hflen
  have hkey : (s.frames_.getD (frame_id.toNat % s.frames_.length) []).length
      ≤ usize symbol_id := by
    rcases hoor with hneg | hge
    · have h31 := usize_of_neg symbol_id hs0 hneg
      have hfl := hlen _ (getD_mem s.frames_ (frame_id.toNat % s.frames_.length) [] hfidlt)
      omega
    · have h0 : 0 ≤ symbol_id := le_trans (Int.natCast_nonneg _) hge
      rw [usize_of_nonneg _ h0 (by omega)]
      omega
  have hnone : ∀ sym, findFirst
      ((loadSymbols s.frames_ sym).getD (frame_id.toNat % s.frames_.length) [])
      (usize symbol_id) = none := by
    intro sym
    apply findFirst_eq_none
    intro p hp he
    have hplt := mem_loadSymbols_getD_lt s.frames_ sym _ p hfidlt hp
    omega
  simp only [List.getD_eq_getElem?_getD] at hnone
  refine ⟨?_, ?_, ?_, ?_, ?_, ?_⟩
  · simp only [isPilot, hfid]
    rw [if_neg (by omega)]
  · simp only [isNoise, hfid]
    rw [if_neg (by omega)]
  · simp only [isData, hfid]
    rw [if_neg (by omega)]
  · simp [getNoiseSFIndex, noise_symbols_, hfid, hnone 'N']
  · simp [getUlSFIndex, ul_symbols_, hfid, hnone 'U']
  · simp [getDlSFIndex, dl_symbols_, hfid, hnone 'D']

/-- Witness for C8 on the schedule `"BGPGUGDGN"` (length 9) at the
out-of-range slot 99. -/
theorem C8_out_of_range_queries_witness :
    isPilot ⟨false, [['B','G','P','G','U','G','D','G','N']]⟩ 0 99 = false ∧
    isNoise ⟨false, [['B','G','P','G','U','G','D','G','N']]⟩ 0 99 = false ∧
    isData ⟨false, [['B','G','P','G','U','G','D','G','N']]⟩ 0 99 = false ∧
    getNoiseSFIndex ⟨false, [['B','G','P','G','U','G','D','G','N']]⟩ 0 99 = -1 ∧
    getUlSFIndex ⟨false, [['B','G','P','G','U','G','D','G','N']]⟩ 0 99 = -1 ∧
    getDlSFIndex ⟨false, [['B','G','P','G','U','G','D','G','N']]⟩ 0 99 = -1 :=
  C8_out_of_range_queries ⟨false, [['B','G','P','G','U','G','D','G','N']]⟩ 0 99
    (by decide) (by decide) (by decide) (by decide) (by decide) (by decide)
    (by decide)

/-! ### Antenna counting (`Config::getTotNumAntennas`, config.cc lines 603-619)

`totNumSdr` is a `size_t`: `+=` and the reciprocal-calibration `--` wrap
modulo `2^64`, as does the final multiplication by the channel count. -/

/-- One iteration of the `getTotNumAntennas` cell loop:
`totNumSdr += n_bs_sdrs_.at(i)`, then `totNumSdr--` in reciprocal
calibration mode, in `size_t` arithmetic. -/
def totStep (reciprocal_calib_ : Bool) (totNumSdr n : Nat) : Nat :=
  let t := (totNumSdr + n) % 2 ^ 64
  if reciprocal_calib_ then (t + (2 ^ 64 - 1)) % 2 ^ 64 else t

/-- `Config::getTotNumAntennas`: without a base station returns 1;
otherwise sums `n_bs_sdrs_` over the cells, decrementing once per cell in
reciprocal calibration mode, and multiplies by `bs_channel_.length()`. -/
def getTotNumAntennas (bs_present_ reciprocal_calib_ : Bool)
    (n_bs_sdrs_ : List Nat) (bs_channel_len : Nat) : Nat :=
  if bs_present_ = false then 1
  else (n_bs_sdrs_.foldl (totStep reciprocal_calib_) 0 * bs_channel_len) % 2 ^ 64

lemma totStep_false (t a : Nat) : totStep false t a = (t + a) % 2 ^ 64 := by
  simp [totStep]

lemma totStep_true (t a : Nat) :
    totStep true t a = ((t + a) % 2 ^ 64 + (2 ^ 64 - 1)) % 2 ^ 64 := by
  simp [totStep]

lemma totNumSdr_fold_false (l : List Nat) :
    ∀ t : Nat, t < 2 ^ 64 → l.foldl (totStep false) t = (t + l.sum) % 2 ^ 64 := by
  induction l with
  | nil =>
    intro t ht
    simp
    omega
  | cons a l ih =>
    intro t ht
    rw [List.foldl_cons, totStep_false, ih ((t + a) % 2 ^ 64) (Nat.mod_lt _ (by norm_num))]
    simp only [List.sum_cons]
    omega

lemma totNumSdr_fold_true (l : List Nat) :
    ∀ t : Nat, t < 2 ^ 64 →
      l.foldl (totStep true) t
        = (t + l.sum + l.length * (2 ^ 64 - 1)) % 2 ^ 64 := by
  induction l with
  | nil =>
    intro t ht
    simp
    omega
  | cons a l ih =>
    intro t ht
    rw [List.foldl_cons, totStep_true,
      ih (((t + a) % 2 ^ 64 + (2 ^ 64 - 1)) % 2 ^ 64) (Nat.mod_lt _ (by norm_num))]
    simp only [List.sum_cons, List.length_cons]
    omega

/-- **C9** (confirmed, implicit).  In reciprocal calibration mode
`getTotNumAntennas` counts one SDR fewer per cell:
`(Σ n_bs_sdrs_[i] − num_cells) * |bs_channel_|`; with reciprocal
calibration off it is `(Σ n_bs_sdrs_[i]) * |bs_channel_|`; with no base
station it returns 1.  (Hypotheses keep the `size_t` arithmetic away from
wrap-around: at least one SDR per cell and a total antenna count below
`2^64`.) -/
theorem C9_tot_num_antennas (bs_present_ reciprocal_calib_ : Bool)
    (n_bs_sdrs_ : List Nat) (bs_channel_len : Nat)
    (hch : 1 ≤ bs_channel_len)
    (hsum : n_bs_sdrs_.sum * bs_channel_len < 2 ^ 64)
    (hcells : n_bs_sdrs_.length ≤ n_bs_sdrs_.sum) :
    (bs_present_ = false →
      getTotNumAntennas bs_present_ reciprocal_calib_ n_bs_sdrs_ bs_channel_len = 1) ∧
    (bs_present_ = true → reciprocal_calib_ = true →
      getTotNumAntennas bs_present_ reciprocal_calib_ n_bs_sdrs_ bs_channel_len
        = (n_bs_sdrs_.sum - n_bs_sdrs_.length) * bs_channel_len) ∧
    (bs_present_ = true → reciprocal_calib_ = false →
      getTotNumAntennas bs_present_ reciprocal_calib_ n_bs_sdrs_ bs_channel_len
        = n_bs_sdrs_.sum * bs_channel_len) := by
  have hsle : n_bs_sdrs_.sum ≤ n_bs_sdrs_.sum * bs_channel_len :=
    Nat.le_mul_of_pos_right _ hch
  refine ⟨?_, ?_, ?_⟩
  · intro hb
    simp [getTotNumAntennas, hb]
  · intro hb hr
    subst hb hr
    rw [getTotNumAntennas, if_neg (by simp),
      totNumSdr_fold_true n_bs_sdrs_ 0 (by norm_num)]
    have hmod : (0 + n_bs_sdrs_.sum + n_bs_sdrs_.length * (2 ^ 64 - 1)) % 2 ^ 64
        = n_bs_sdrs_.sum - n_bs_sdrs_.length := by
      omega
    rw [hmod]
    have hlt : (n_bs_sdrs_.sum - n_bs_sdrs_.length) * bs_channel_len < 2 ^ 64 :=
      lt_of_le_of_lt (Nat.mul_le_mul_right _ (Nat.sub_le _ _)) hsum
    exact Nat.mod_eq_of_lt hlt
  · intro hb hr
    subst hb hr
    rw [getTotNumAntennas, if_neg (by simp),
      totNumSdr_fold_false n_bs_sdrs_ 0 (by norm_num)]
    have hmod : (0 + n_bs_sdrs_.sum) % 2 ^ 64 = n_bs_sdrs_.sum := by omega
    rw [hmod]
    exact Nat.mod_eq_of_lt hsum

/-- Witness for C9: two cells with 2 and 3 SDRs, channel "AB", reciprocal
calibration on: `(5 − 2) * 2 = 6` antennas. -/
theorem C9_tot_num_antennas_witness :
    (true = false → getTotNumAntennas true true [2, 3] 2 = 1) ∧
    (true = true → true = true →
      getTotNumAntennas true true [2, 3] 2
        = (([2, 3] : List Nat).sum - ([2, 3] : List Nat).length) * 2) ∧
    (true = true → true = false →
      getTotNumAntennas true true [2, 3] 2 = ([2, 3] : List Nat).sum * 2) := by
  have h := C9_tot_num_antennas true true [2, 3] 2 (by decide)
    (by norm_num) (by decide)
  exact h

example :
    calibFrames 3 1 2
      = some [['P','P','R','G','G'],
              ['R','R','P','G','R','R'],
              ['G','G','R','G','P','P']] := by decide

example :
    calibFrames 3 2 2
      = some [['P','P','G','G','R'],
              ['G','G','P','P','R'],
              ['R','R','R','R','P']] := by decide

example : calibFrames 1 0 2 = some [['P']] := by decide

example : calibFrames 4 3 1 = some [['P','G','G','R'],['G','P','G','R'],['G','G','P','R'],['R','R','R','P']] := by decide

end Sounder
